import Mathlib

/-!
Verification of the dealmind-backend agent pipeline layer
(`app/agents/{orchestrator,qualification,proposal,monitoring}.py`).

The Python code is shallowly embedded: every definition below mirrors a
function (or a delimited part of a function) of the source.  Python floats
are modelled as rationals, Python ints as integers, JSON values produced by
`json.loads` as an inductive `Json` type, and Python exceptions as an
`Except` error side.  String operations used by the code
(`str.split(sep)`, `sep in s`, `str.strip()`, `str.lower()`, whitespace
`str.split()`) are re-implemented by structural recursion so that all
concrete evaluations reduce in the kernel.
-/

namespace DealMind

/-- The opening brace character (written by code point to keep brace
characters out of the source text). -/
def lbrace : Char := '\x7b'

/-- The closing brace character. -/
def rbrace : Char := '\x7d'

/-- JSON values, the result type of Python's `json.loads`.  A Python dict
is a list of key/value pairs in insertion order (later duplicates win on
lookup, as in CPython). -/
inductive Json where
  | null : Json
  | bool : Bool → Json
  | num : ℚ → Json
  | str : String → Json
  | arr : List Json → Json
  | obj : List (String × Json) → Json

/-- Numeric view of a JSON value (used only in theorem statements to avoid
needing decidable equality on nested `Json`). -/
def Json.asQ : Json → Option ℚ
  | Json.num q => some q
  | _ => none

/-- Python truthiness of a JSON-decoded value (`if parsed:`):
`None`, `False`, `0`, `""`, `[]` and an empty dict are falsy. -/
def jsonTruthy : Json → Bool
  | Json.null => false
  | Json.bool b => b
  | Json.num q => if q = 0 then false else true
  | Json.str s => if s = "" then false else true
  | Json.arr xs => if xs.isEmpty then false else true
  | Json.obj fs => if fs.isEmpty then false else true

/-- Whether Python's `len()` is defined on the value (str/list/dict are
sized; numbers, booleans and `None` raise `TypeError`). -/
def jsonSized : Json → Bool
  | Json.str _ => true
  | Json.arr _ => true
  | Json.obj _ => true
  | _ => false

/-- Python `dict.get(key, default)` on a `json.loads` result: the last
binding of the key wins, as in CPython dict construction. -/
def objGet (fields : List (String × Json)) (key : String) (default : Json) : Json :=
  match fields.reverse.find? (fun kv => kv.1 == key) with
  | some kv => kv.2
  | none => default

/-- JSON inter-token whitespace characters (RFC 8259). -/
def isJsonWs (c : Char) : Bool :=
  c == ' ' || c == '\t' || c == '\n' || c == '\r'

/-- ASCII whitespace as recognised by Python's `str.strip()` / `str.split()`
(the embedding restricts to ASCII text). -/
def isPyWs (c : Char) : Bool :=
  c == ' ' || c == '\t' || c == '\n' || c == '\r' || c == '\x0b' || c == '\x0c'

/-- Drop leading JSON whitespace. -/
def skipWs : List Char → List Char
  | [] => []
  | c :: cs => if isJsonWs c then skipWs cs else c :: cs

/-- Drop leading Python whitespace. -/
def skipPyWs : List Char → List Char
  | [] => []
  | c :: cs => if isPyWs c then skipPyWs cs else c :: cs

/-- Model of Python `str.strip()` on ASCII text. -/
def pyStrip (s : String) : String :=
  ⟨(skipPyWs (skipPyWs s.data.reverse).reverse)⟩

/-- Consume a maximal run of decimal digits, accumulating their value. -/
def digitsToNat (acc : ℕ) : List Char → ℕ × List Char
  | [] => (acc, [])
  | c :: cs =>
    if c.isDigit then digitsToNat (acc * 10 + (c.toNat - 48)) cs
    else (acc, c :: cs)

/-- Parse an unsigned JSON number (integer part, optional fraction,
optional exponent). -/
def parsePosNumber (cs : List Char) : Option (ℚ × List Char) :=
  match cs with
  | [] => none
  | c :: _ =>
    if c.isDigit then
      let p := digitsToNat 0 cs
      let intPart : ℚ := (p.1 : ℚ)
      let afterFrac : Option (ℚ × List Char) :=
        match p.2 with
        | '.' :: d :: rest2 =>
          if d.isDigit then
            let q := digitsToNat 0 (d :: rest2)
            let k := (d :: rest2).length - q.2.length
            some (intPart + (q.1 : ℚ) / ((10 : ℚ) ^ k), q.2)
          else none
        | _ => some (intPart, p.2)
      match afterFrac with
      | none => none
      | some (v, rest) =>
        match rest with
        | 'e' :: rest2 => parseExponent v rest2
        | 'E' :: rest2 => parseExponent v rest2
        | _ => some (v, rest)
    else none
where
  /-- Parse the exponent suffix of a JSON number. -/
  parseExponent (v : ℚ) (cs : List Char) : Option (ℚ × List Char) :=
    match cs with
    | '+' :: d :: rest => if d.isDigit then
        let q := digitsToNat 0 (d :: rest)
        some (v * (10 : ℚ) ^ q.1, q.2) else none
    | '-' :: d :: rest => if d.isDigit then
        let q := digitsToNat 0 (d :: rest)
        some (v / (10 : ℚ) ^ q.1, q.2) else none
    | d :: rest => if d.isDigit then
        let q := digitsToNat 0 (d :: rest)
        some (v * (10 : ℚ) ^ q.1, q.2) else none
    | [] => none

/-- Parse a JSON number with optional leading minus sign. -/
def parseNumber (cs : List Char) : Option (ℚ × List Char) :=
  match cs with
  | '-' :: rest => (parsePosNumber rest).map (fun p => (-p.1, p.2))
  | _ => parsePosNumber cs

/-- Translate a JSON string escape character. -/
def unescapeChar (c : Char) : Char :=
  if c == 'n' then '\n'
  else if c == 't' then '\t'
  else if c == 'r' then '\r'
  else if c == 'b' then '\x08'
  else if c == 'f' then '\x0c'
  else c

/-- Parse the body of a JSON string after the opening quote, up to the
closing quote (`\\uXXXX` escapes are simplified to the literal character). -/
def parseStringBody : List Char → Option (List Char × List Char)
  | [] => none
  | '"' :: rest => some ([], rest)
  | '\\' :: e :: rest =>
    (parseStringBody rest).map (fun p => (unescapeChar e :: p.1, p.2))
  | '\\' :: [] => none
  | c :: rest => (parseStringBody rest).map (fun p => (c :: p.1, p.2))

/-- If `sep` is a prefix of `cs`, return the remainder. -/
def dropPrefixQ : List Char → List Char → Option (List Char)
  | [], cs => some cs
  | _ :: _, [] => none
  | a :: s, c :: cs => if a == c then dropPrefixQ s cs else none

mutual

/-- Fuel-indexed recursive-descent parser for one JSON value; returns the
value and the unconsumed remainder. -/
def parseVal : ℕ → List Char → Option (Json × List Char)
  | 0, _ => none
  | fuel + 1, cs =>
    match skipWs cs with
    | [] => none
    | c :: rest =>
      if c == '"' then
        (parseStringBody rest).map (fun p => (Json.str ⟨p.1⟩, p.2))
      else if c == '[' then
        match skipWs rest with
        | ']' :: r => some (Json.arr [], r)
        | cs2 => (parseElems fuel cs2).map (fun p => (Json.arr p.1, p.2))
      else if c == lbrace then
        match skipWs rest with
        | c2 :: r =>
          if c2 == rbrace then some (Json.obj [], r)
          else (parseMembers fuel (c2 :: r)).map (fun p => (Json.obj p.1, p.2))
        | [] => none
      else if c == 't' then
        (dropPrefixQ ['r', 'u', 'e'] rest).map (fun r => (Json.bool true, r))
      else if c == 'f' then
        (dropPrefixQ ['a', 'l', 's', 'e'] rest).map (fun r => (Json.bool false, r))
      else if c == 'n' then
        (dropPrefixQ ['u', 'l', 'l'] rest).map (fun r => (Json.null, r))
      else
        (parseNumber (c :: rest)).map (fun p => (Json.num p.1, p.2))

/-- Parse the non-empty element list of a JSON array (after `[`). -/
def parseElems : ℕ → List Char → Option (List Json × List Char)
  | 0, _ => none
  | fuel + 1, cs =>
    match parseVal fuel cs with
    | none => none
    | some (v, r) =>
      match skipWs r with
      | ',' :: r2 => (parseElems fuel r2).map (fun p => (v :: p.1, p.2))
      | ']' :: r2 => some ([v], r2)
      | _ => none

/-- Parse the non-empty member list of a JSON object (after the opening
brace). -/
def parseMembers : ℕ → List Char → Option (List (String × Json) × List Char)
  | 0, _ => none
  | fuel + 1, cs =>
    match skipWs cs with
    | '"' :: r =>
      match parseStringBody r with
      | none => none
      | some (k, r1) =>
        match skipWs r1 with
        | ':' :: r2 =>
          match parseVal fuel r2 with
          | none => none
          | some (v, r3) =>
            match skipWs r3 with
            | ',' :: r4 =>
              (parseMembers fuel r4).map (fun p => ((⟨k⟩, v) :: p.1, p.2))
            | c :: r4 =>
              if c == rbrace then some ([(⟨k⟩, v)], r4) else none
            | [] => none
        | _ => none
    | _ => none

end

/-- Model of Python `json.loads`: parse the whole text as one JSON value;
`none` models a raised `json.JSONDecodeError` (leftover non-whitespace
text is the "Extra data" error). -/
def jsonLoads (s : String) : Option Json :=
  match parseVal (2 * s.data.length + 2) s.data with
  | none => none
  | some (v, rest) => if (skipWs rest).isEmpty then some v else none

/-! Python string primitives used by the agent code. -/

/-- Bool-valued substring test on character lists (Python `sub in s`). -/
def isSubB (needle : List Char) : List Char → Bool
  | [] => needle.isEmpty
  | c :: t => needle.isPrefixOf (c :: t) || isSubB needle t

/-- Python `sub in s` for strings. -/
def pyContains (s sub : String) : Bool := isSubB sub.data s.data

/-- Fuel-indexed worker for `str.split(sep)` with a non-empty separator:
split at every non-overlapping occurrence, scanning left to right. -/
def splitOnFuel (sep : List Char) : ℕ → List Char → List (List Char)
  | _, [] => [[]]
  | 0, cs => [cs]
  | fuel + 1, c :: cs =>
    match dropPrefixQ sep (c :: cs) with
    | some rest => [] :: splitOnFuel sep fuel rest
    | none =>
      match splitOnFuel sep fuel cs with
      | [] => [[c]]
      | p :: ps => (c :: p) :: ps

/-- Model of Python `s.split(sep)` for a non-empty separator. -/
def pySplit (s sep : String) : List String :=
  (splitOnFuel sep.data (s.data.length + 1) s.data).map (fun l => ⟨l⟩)

/-- Model of Python `s.lower()` on ASCII text. -/
def strLower (s : String) : String := ⟨s.data.map Char.toLower⟩

/-- Worker for whitespace `str.split()`: accumulate the current word
(reversed) and emit words between whitespace runs; empty words are
dropped, as in Python. -/
def wordsAux : List Char → List Char → List (List Char)
  | [], acc => if acc.isEmpty then [] else [acc.reverse]
  | c :: cs, acc =>
    if isPyWs c then
      if acc.isEmpty then wordsAux cs [] else acc.reverse :: wordsAux cs []
    else wordsAux cs (c :: acc)

/-- Model of Python `s.split()` (split on whitespace runs, no empties). -/
def pyWords (s : String) : List String :=
  (wordsAux s.data []).map (fun l => ⟨l⟩)

/-!
The fenced-code-block extraction shared by `sentiment_node`
(`monitoring.py` 62-67), `extract_node`, `analyze_node` and `decide_node`
(`qualification.py`):

    if "```json" in result_text:
        result_text = result_text.split("```json")[1].split("```")[0]
    elif "```" in result_text:
        result_text = result_text.split("```")[1].split("```")[0]

The indexing `[1]` is guarded by the containment test and so never raises.
-/

/-- Interior of the first fenced block labelled `sep`, as computed by
`split(sep)[1].split("```")[0]`. -/
def fenceInterior (resultText : String) (sep : String) : String :=
  (pySplit ((pySplit resultText sep).getD 1 "") "```").headD ""

/-- The fence-stripping reassignment applied to the raw LLM response
before `json.loads(result_text.strip())`. -/
def extractFenced (resultText : String) : String :=
  if pyContains resultText "```json" then fenceInterior resultText "```json"
  else if pyContains resultText "```" then fenceInterior resultText "```"
  else resultText

/-- Python exceptions that the embedded parse paths can raise. -/
inductive PyError where
  | attributeError : PyError
  | typeError : PyError
deriving DecidableEq

/-!
`sentiment_node` (`monitoring.py` 60-83), parse path: the `try:` block
strips fences, calls `json.loads`, then `result.get("scores", [])` /
`result.get("overall_sentiment", 0.0)` and logs
`len(sentiment_scores)`.  Only `json.JSONDecodeError` and `IndexError`
are caught; `result.get` on a non-dict raises `AttributeError` and
`len(...)` on an unsized value raises `TypeError`, neither of which is
caught.
-/

/-- The partial state update returned by the sentiment stage. -/
structure SentimentUpdate where
  sentiment_scores : Json
  overall_sentiment : Json
  current_step : String

/-- Parse path of `sentiment_node` applied to the raw LLM response text:
`Except.error` models an exception escaping the stage. -/
def sentiment_node_parse (resultText : String) : Except PyError SentimentUpdate :=
  match jsonLoads (pyStrip (extractFenced resultText)) with
  | none =>
    Except.ok ⟨Json.arr [], Json.num 0, "sentiment"⟩
  | some (Json.obj fields) =>
    let scores := objGet fields "scores" (Json.arr [])
    if jsonSized scores then
      Except.ok ⟨scores, objGet fields "overall_sentiment" (Json.num 0), "sentiment"⟩
    else
      Except.error PyError.typeError
  | some _ => Except.error PyError.attributeError

/-- Boolean condition under which the sentiment parse path completes
without an exception (used to state totality precisely). -/
def sentimentParseOk (resultText : String) : Bool :=
  match jsonLoads (pyStrip (extractFenced resultText)) with
  | none => true
  | some (Json.obj fields) => jsonSized (objGet fields "scores" (Json.arr []))
  | some _ => false

/-!
`comply_node` (`proposal.py` 294-404): four parse strategies tried in
order inside a `try: ... except Exception:` boundary, then Python
truthiness (`if parsed:`) decides between the extraction branch and the
"could not parse" fallback.  The prose `title`/`notes` fields of the
fallback issue records are elided; the embedded record keeps the numeric
score, the issues value and the step marker.
-/

/-- The partial state update returned by the comply stage
(`final_proposal` is absent from the no-requirements early return, hence
the `Option`). -/
structure ComplyUpdate where
  compliance_score : ℚ
  compliance_issues : Json
  final_proposal : Option String
  current_step : String

/-- Strategies 1 and 2: interior of a fenced block, stripped, then
`json.loads`; a decode failure is swallowed (`parsed` stays `None`). -/
def complyFenceStrategy (resultText : String) (sep : String) : Option Json :=
  if pyContains resultText sep then
    jsonLoads (pyStrip (fenceInterior resultText sep))
  else none

/-- Strategy 3: the greedy regex
`\x7b[\s\S]*"compliance_score"[\s\S]*\x7d` matches from the first opening
brace to the last closing brace provided the quoted marker field occurs
in between; the matched text is handed to `json.loads`. -/
def complyRegexStrategy (resultText : String) : Option Json :=
  let afterBrace := resultText.data.dropWhile (fun c => !(c == lbrace))
  let upToLast := (afterBrace.reverse.dropWhile (fun c => !(c == rbrace))).reverse
  if !upToLast.isEmpty && isSubB ("\"compliance_score\"".data) upToLast then
    jsonLoads ⟨upToLast⟩
  else none

/-- The four-strategy chain of `comply_node`: first success wins
(`parsed` in the source). -/
def complyParsed (resultText : String) : Option Json :=
  let s1 := complyFenceStrategy resultText "```json"
  let s2 := match s1 with
    | some v => some v
    | none => complyFenceStrategy resultText "```"
  let s3 := match s2 with
    | some v => some v
    | none => complyRegexStrategy resultText
  match s3 with
  | some v => some v
  | none => jsonLoads (pyStrip resultText)

/-- The `else` branch taken when `parsed` is falsy ("could not parse"):
score 0.85 and a single manual-review issue record. -/
def complyNoParseFallback (draft : String) : ComplyUpdate :=
  ⟨(85 : ℚ) / 100,
   Json.arr [Json.obj [("requirement_index", Json.num 0),
     ("requirement_text", Json.str "Auto-check"),
     ("status", Json.str "partially_addressed")]],
   some draft, "comply"⟩

/-- The `except Exception` branch: score 0.85 and a single error issue
record. -/
def complyExceptFallback (draft : String) : ComplyUpdate :=
  ⟨(85 : ℚ) / 100,
   Json.arr [Json.obj [("requirement_index", Json.num 0),
     ("requirement_text", Json.str "Auto-check"),
     ("status", Json.str "partially_addressed")]],
   some draft, "comply"⟩

/-- Body of the `try:` block of `comply_node` after the LLM call: the
error side models an exception reaching the `except Exception` handler
(`parsed.get` on a truthy non-dict raises `AttributeError`, `len` of an
unsized `issues` value raises `TypeError` in the logging call). -/
def comply_try (draft resultText : String) : Except PyError ComplyUpdate :=
  match complyParsed resultText with
  | some v =>
    if jsonTruthy v then
      match v with
      | Json.obj fields =>
        let raw := objGet fields "compliance_score" (Json.num 0)
        let score : ℚ :=
          match raw with
          | Json.num q => max 0 (min 1 q)
          | Json.bool b => max 0 (min 1 (if b then 1 else 0))
          | _ => (85 : ℚ) / 100
        let issues := objGet fields "issues" (Json.arr [])
        if jsonSized issues then
          Except.ok ⟨score, issues, some draft, "comply"⟩
        else
          Except.error PyError.typeError
      | _ => Except.error PyError.attributeError
    else
      Except.ok (complyNoParseFallback draft)
  | none => Except.ok (complyNoParseFallback draft)

/-- The complete parse path of `comply_node` including the
`except Exception` boundary: always returns a well-formed update. -/
def comply_node_result (draft resultText : String) : ComplyUpdate :=
  match comply_try draft resultText with
  | Except.ok u => u
  | Except.error _ => complyExceptFallback draft

/-- The early return of `comply_node` when the deal has no requirements
(`proposal.py` 299-304): perfect score, no issues, no `final_proposal`
key. -/
def comply_node (requirements : List Json) (draft resultText : String) : ComplyUpdate :=
  if requirements.isEmpty then ⟨1, Json.arr [], none, "comply"⟩
  else comply_node_result draft resultText

/-!
`decide_node` (`qualification.py` 259-350), parse path: same fence
stripping, `json.loads`, then `decision.get(...)` reads with defaults.
The parsed `confidence_score` is returned as-is, with no clamping.  The
failure branch returns `no_go` / `0.0` and omits the factor lists.
-/

/-- The partial state update returned by the decide stage (the factor
lists are absent from the failure branch, hence the `Option`s). -/
structure DecideUpdate where
  recommendation : Json
  confidence_score : Json
  positive_factors : Option Json
  risk_factors : Option Json
  conditions : Option Json
  reasoning : Json
  current_step : String

/-- Parse path of `decide_node` applied to the raw LLM response text. -/
def decide_node_parse (resultText : String) : Except PyError DecideUpdate :=
  match jsonLoads (pyStrip (extractFenced resultText)) with
  | none =>
    Except.ok ⟨Json.str "no_go", Json.num 0, none, none, none,
      Json.str "Failed to generate decision", "decide"⟩
  | some (Json.obj fields) =>
    Except.ok ⟨objGet fields "recommendation" (Json.str "no_go"),
      objGet fields "confidence_score" (Json.num ((1 : ℚ) / 2)),
      some (objGet fields "positive_factors" (Json.arr [])),
      some (objGet fields "risk_factors" (Json.arr [])),
      some (objGet fields "conditions" (Json.arr [])),
      objGet fields "reasoning" (Json.str ""), "decide"⟩
  | some _ => Except.error PyError.attributeError

/-- The parsed confidence score of a decide-stage result, if the stage
returned normally. -/
def decideConfidence (r : Except PyError DecideUpdate) : Option ℚ :=
  match r with
  | Except.ok u => u.confidence_score.asQ
  | Except.error _ => none

/-!
`health_node` (`monitoring.py` 86-115): base score from
`deal_data.get("health_score", 70)`, adjustment `int(sentiment * 15)`
(Python `int()` truncates toward zero), clamp into [0, 100], trend against
`deal_data.get("previous_health_score", base_score)` with a ±5 threshold.
-/

/-- Python `int()` applied to a float value: truncation toward zero. -/
def pyInt (q : ℚ) : ℤ :=
  if 0 ≤ q then ⌊q⌋ else -⌊-q⌋

/-- The two `deal_data` fields read by the health stage. -/
structure DealData where
  healthScore : Option ℤ
  previousHealthScore : Option ℤ

/-- The partial state update returned by the health stage. -/
structure HealthUpdate where
  health_score : ℤ
  trend : String
  current_step : String
deriving DecidableEq

/-- Embedding of `health_node` over the deal data and the overall
sentiment taken from the state. -/
def health_node (deal : DealData) (sentiment : ℚ) : HealthUpdate :=
  let base_score := deal.healthScore.getD 70
  let sentiment_adjustment := pyInt (sentiment * 15)
  let health_score := max 0 (min 100 (base_score + sentiment_adjustment))
  let previous_score := deal.previousHealthScore.getD base_score
  let trend :=
    if previous_score + 5 < health_score then "up"
    else if health_score < previous_score - 5 then "down"
    else "stable"
  ⟨health_score, trend, "health"⟩

/-- Health formula as the spec sentence words it: adjustment
`floor(sentiment × 15)` (differs from the source's `int()` truncation on
negative products). -/
def specHealthFloor (base : ℤ) (sentiment : ℚ) : ℤ :=
  max 0 (min 100 (base + ⌊sentiment * 15⌋))

/-!
`alert_node` (`monitoring.py` 118-176): threshold-derived alerts.  The
prose `title`/`description` strings are elided; each alert record keeps
its type and severity.  The inner `break` of the competitor scan yields
at most one `competitor_mention` alert per sentiment-score record.
-/

/-- One entry of `state["sentiment_scores"]` as the alert stage reads it
(`score.get("signals", [])`). -/
structure ScoreRec where
  signals : List String
deriving DecidableEq

/-- An alert record (type and severity; prose fields elided). -/
structure AlertRec where
  alert_type : String
  severity : String
deriving DecidableEq

/-- Whether some signal of the record contains the substring
"competitor" after lower-casing. -/
def hasCompetitorSignal (sc : ScoreRec) : Bool :=
  sc.signals.any (fun sig => isSubB "competitor".data (strLower sig).data)

/-- Embedding of `alert_node` over the overall sentiment, health score
and sentiment-score records taken from the state. -/
def alert_node (sentiment : ℚ) (health_score : ℤ) (sentiment_scores : List ScoreRec) :
    List AlertRec :=
  let a1 : List AlertRec :=
    if sentiment < -(3 / 10 : ℚ) then
      [⟨"sentiment_drop", if sentiment < -(6 / 10 : ℚ) then "critical" else "high"⟩]
    else []
  let a2 : List AlertRec :=
    if health_score < 50 then [⟨"deadline_risk", "high"⟩] else []
  let a3 : List AlertRec :=
    sentiment_scores.filterMap (fun sc =>
      if hasCompetitorSignal sc then some ⟨"competitor_mention", "medium"⟩ else none)
  let alerts := a1 ++ a2 ++ a3
  if alerts.isEmpty ∧ (2 / 10 : ℚ) < sentiment then [⟨"positive_update", "info"⟩]
  else alerts

/-!
Capability matching (`orchestrator.py` 222-260, inside
`run_qualification_flow`): keyword set from requirement texts (length > 3
whitespace tokens), whole lower-cased categories, gap-analysis areas and
key roles; employee term set from lower-cased skills plus role words of
length > 3; overlap-scored, zero-overlap employees dropped, then a stable
descending sort on the match score.
-/

/-- An extracted requirement as the matcher reads it
(`req.get("text", "")`, `req.get("category", "")`). -/
structure Requirement where
  text : String
  category : String

/-- The three gap-analysis lists the matcher reads
(`strong_areas`, `gap_areas`, `resource_estimate.key_roles`). -/
structure GapAnalysis where
  strong_areas : List String
  gap_areas : List String
  key_roles : List String

/-- An active employee row as the matcher reads it. -/
structure EmployeeRec where
  employeeId : String
  name : String
  role : String
  skills : List String
  availabilityPercent : ℤ
deriving DecidableEq

/-- Lower-cased whitespace tokens of length > 3 (the recurring
`for word in s.lower().split(): if len(word) > 3` pattern). -/
def keywordTokens (s : String) : List String :=
  (pyWords (strLower s)).filter (fun w => w.length > 3)

/-- The `required_keywords` set: tokens of each requirement's text plus
the requirement's whole lower-cased category, then tokens of the
gap-analysis strong/gap areas and of the key roles. -/
def requiredKeywords (reqs : List Requirement) (gap : GapAnalysis) : Finset String :=
  let fromReqs := reqs.foldl
    (fun acc r => (acc ∪ (keywordTokens r.text).toFinset) ∪ {strLower r.category}) ∅
  let fromAreas := (gap.strong_areas ++ gap.gap_areas).foldl
    (fun acc a => acc ∪ (keywordTokens a).toFinset) fromReqs
  gap.key_roles.foldl (fun acc a => acc ∪ (keywordTokens a).toFinset) fromAreas

/-- The requirement keyword set as §4.3 of the spec words it: length > 3
lower-cased whitespace tokens of each requirement's text and of its
category (no whole-category insertion, no gap-analysis contribution). -/
def specRequiredKeywords (reqs : List Requirement) : Finset String :=
  reqs.foldl
    (fun acc r => (acc ∪ (keywordTokens r.text).toFinset) ∪ (keywordTokens r.category).toFinset) ∅

/-- An employee's term set: lower-cased skills united with role words of
length > 3 (split before lower-casing, as in the source). -/
def empTerms (e : EmployeeRec) : Finset String :=
  (e.skills.map strLower).toFinset ∪
    (((pyWords e.role).filter (fun w => w.length > 3)).map strLower).toFinset

/-- One entry of `matched_staff`. -/
structure MatchedStaff where
  employeeId : String
  name : String
  role : String
  matchingSkills : Finset String
  matchScore : ℕ
  availabilityPercent : ℤ
deriving DecidableEq

/-- Build the `matched_staff` record for one employee. -/
def mkMatched (kw : Finset String) (e : EmployeeRec) : MatchedStaff :=
  ⟨e.employeeId, e.name, e.role, empTerms e ∩ kw, (empTerms e ∩ kw).card,
    e.availabilityPercent⟩

/-- The scoring loop: employees with a non-empty overlap become
`matched_staff` entries (in roster order); zero-overlap employees are
dropped, not scored 0. -/
def scoreEmployees (emps : List EmployeeRec) (kw : Finset String) : List MatchedStaff :=
  emps.filterMap (fun e =>
    if empTerms e ∩ kw = ∅ then none else some (mkMatched kw e))

/-- Stable descending insertion for the match-score sort: `x` is placed
before the first element whose score does not exceed `x`'s. -/
def insertDesc (x : MatchedStaff) : List MatchedStaff → List MatchedStaff
  | [] => [x]
  | y :: ys =>
    if y.matchScore ≤ x.matchScore then x :: y :: ys else y :: insertDesc x ys

/-- Stable descending sort on the match score, modelling
`matched_staff.sort(key=..., reverse=True)` (CPython's sort is stable). -/
def sortDesc : List MatchedStaff → List MatchedStaff
  | [] => []
  | x :: xs => insertDesc x (sortDesc xs)

/-- The final ranked `matched_staff` list. -/
def rankEmployees (emps : List EmployeeRec) (kw : Finset String) : List MatchedStaff :=
  sortDesc (scoreEmployees emps kw)

/-!
Auto-assignment (`orchestrator.py` 262-282): when `matched_staff` is
non-empty, delete every prior assignment of the deal whose
`assigned_by == "auto"`, then create one `auto` assignment per entry of
`matched_staff[:5]` with `allocation_percent = min(availability, 100)`.
-/

/-- A `deal_assignments` row (the generated UUID and timestamps are
elided). -/
structure DealAssignmentRec where
  dealId : String
  employeeId : String
  roleOnDeal : String
  allocationPercent : ℤ
  assignedBy : String
  matchScore : ℕ
deriving DecidableEq

/-- The new assignment row created for one matched-staff entry. -/
def mkAutoAssignment (dealId : String) (s : MatchedStaff) : DealAssignmentRec :=
  ⟨dealId, s.employeeId, s.role, min s.availabilityPercent 100, "auto", s.matchScore⟩

/-- Whether a row is an automatic assignment of the given deal (the
delete filter `deal_id == deal_id AND assigned_by == "auto"`). -/
def isAutoFor (dealId : String) (a : DealAssignmentRec) : Bool :=
  a.dealId == dealId && a.assignedBy == "auto"

/-- Embedding of the auto-assignment block: the resulting assignment
table and the `auto_assigned` counter. -/
def autoAssign (dealId : String) (prior : List DealAssignmentRec)
    (matched : List MatchedStaff) : List DealAssignmentRec × ℕ :=
  if matched.isEmpty then (prior, 0)
  else
    let kept := prior.filter (fun a => !isAutoFor dealId a)
    let newRows := (matched.take 5).map (mkAutoAssignment dealId)
    (kept ++ newRows, newRows.length)

/-!
Progress events.  `send_update` and the direct `task_store` writes of
`_run_graph_sync` and `run_agent_flow` produce, for one successful run,
a fixed sequence of `(step, step_number, total_steps, status)` records:
the `initializing` record (no index, no total), the pre-stage
announcement, one `processing` record per streamed graph node
(`steps.index(node_name) + 1`), and the final `complete` record.
-/

/-- One progress record as stored in `task_store` / sent over the
websocket (message and payload elided). -/
structure ProgressEvent where
  step : String
  stepNumber : Option ℕ
  totalSteps : Option ℕ
  status : String
deriving DecidableEq

/-- The fixed qualification stage list (`steps` in
`run_qualification_flow`). -/
def qualificationSteps : List String := ["ingest", "extract", "analyze", "match", "decide"]

/-- The fixed proposal stage list (`steps` in `run_proposal_flow`). -/
def proposalSteps : List String := ["retrieve", "generate", "comply"]

/-- The fixed monitoring stage list (`steps` in `run_monitoring_flow`). -/
def monitoringSteps : List String := ["sentiment", "health", "alert", "recovery"]

/-- The `task_store` records written by `_run_graph_sync` while streaming
a linear graph: the nodes fire in chain order, so
`steps.index(node_name) + 1` enumerates `1, 2, ...`. -/
def graphStreamEvents (steps : List String) (total : ℕ) : List ProgressEvent :=
  steps.enum.map (fun p => ⟨p.2, some (p.1 + 1), some total, "processing"⟩)

/-- The record `run_agent_flow` stores before dispatching (no
`step_number`, no `total_steps` key). -/
def initializingEvent : ProgressEvent := ⟨"initializing", none, none, "processing"⟩

/-- Event sequence of a successful qualification run. -/
def qualificationRunEvents : List ProgressEvent :=
  [initializingEvent, ⟨"ingest", some 1, some 5, "processing"⟩]
    ++ graphStreamEvents qualificationSteps 5
    ++ [⟨"complete", some 5, some 5, "completed"⟩]

/-- Event sequence of a successful proposal run. -/
def proposalRunEvents : List ProgressEvent :=
  [initializingEvent, ⟨"retrieve", some 1, some 3, "processing"⟩]
    ++ graphStreamEvents proposalSteps 3
    ++ [⟨"complete", some 3, some 3, "completed"⟩]

/-- Event sequence of a successful monitoring run that analysed at least
one communication. -/
def monitoringRunEvents : List ProgressEvent :=
  [initializingEvent, ⟨"sentiment", some 1, some 4, "processing"⟩]
    ++ graphStreamEvents monitoringSteps 4
    ++ [⟨"complete", some 4, some 4, "completed"⟩]

/-- Event sequence of a successful monitoring run whose email fetch
found nothing (the early return at `orchestrator.py` 504-512). -/
def monitoringNoCommsRunEvents : List ProgressEvent :=
  [initializingEvent, ⟨"sentiment", some 1, some 4, "processing"⟩,
   ⟨"complete", some 4, some 4, "completed"⟩]

/-- The stage indices reported along a run, in order. -/
def stepNumbers (t : List ProgressEvent) : List ℕ := t.filterMap (fun e => e.stepNumber)

/-- Bool-valued strict chain test on the reported indices. -/
def isChainLt : List ℕ → Bool
  | [] => true
  | [_] => true
  | a :: b :: t => a < b && isChainLt (b :: t)

/-- Bool-valued non-decreasing chain test on the reported indices. -/
def isChainLe : List ℕ → Bool
  | [] => true
  | [_] => true
  | a :: b :: t => a ≤ b && isChainLe (b :: t)

/-!
Monitoring flow outcome (`run_monitoring_flow`): with zero fetched
communications the flow sends one final `completed` update with zero
alerts and the no-data message, and never reaches the graph; otherwise
the graph result is reported.
-/

/-- A communication record as assembled from fetched emails. -/
structure CommRec where
  sender : String
  subject : String
  content : String
deriving DecidableEq

/-- The data reported with the final update of a monitoring run. -/
structure MonitoringOutcome where
  status : String
  step : String
  alertsGenerated : ℕ
  message : String
  noEmailsReason : Option String
  healthScore : ℤ
  sentiment : ℚ
deriving DecidableEq

/-- Final update of `run_monitoring_flow` once the deal was found: early
no-data completion when `real_comms` is empty, otherwise the outcome of
the graph run. -/
def run_monitoring_final (comms : List CommRec) (dealHealthScore : Option ℤ)
    (noEmailsReason : Option String) (graphOutcome : MonitoringOutcome) :
    MonitoringOutcome :=
  if comms.isEmpty then
    ⟨"completed", "complete", 0, "Monitoring complete — no relevant emails found",
      noEmailsReason, dealHealthScore.getD 70, 0⟩
  else graphOutcome

/-- The stages a monitoring run executes: none when the communication
fetch was empty (the early return precedes the graph run), otherwise
each node of the compiled linear chain exactly once, in edge order
(`build_monitoring_graph`). -/
def monitoringExecutedStages (comms : List CommRec) : List String :=
  if comms.isEmpty then [] else monitoringSteps

/-- The node chain of `build_qualification_graph` (entry point `ingest`,
then the `add_edge` chain). -/
def qualificationGraphChain : List String :=
  ["ingest", "extract", "analyze", "match", "decide"]

/-- The node chain of `build_proposal_graph`. -/
def proposalGraphChain : List String := ["retrieve", "generate", "comply"]

/-- The node chain of `build_monitoring_graph`. -/
def monitoringGraphChain : List String := ["sentiment", "health", "alert", "recovery"]

/-! Theorems. -/

/-- C3 (counterexample): at base score 70 and sentiment −0.7 the source
computes `int(-0.7 * 15) = -10` and health 60, while the claimed
`floor(sentiment × 15)` adjustment would give −11 and health 59. -/
theorem c3_counterexample :
    (health_node ⟨some 70, none⟩ (-(7 / 10))).health_score = 60
  ∧ specHealthFloor 70 (-(7 / 10)) = 59
  ∧ (60 : ℤ) ≠ 59 := by
  refine ⟨?_, ?_, by norm_num⟩
  · show max 0 (min 100 (70 + pyInt (-(7 / 10) * 15))) = 60
    have h1 : (-(7 / 10 : ℚ) * 15) = -(21 / 2) := by norm_num
    have h2 : pyInt (-(21 / 2)) = -10 := by
      unfold pyInt
      rw [if_neg (by norm_num)]
      have h3 : ⌊(-(-(21 / 2)) : ℚ)⌋ = 10 := by
        rw [Int.floor_eq_iff]; norm_num
      rw [h3]
    rw [h1, h2]
    decide
  · show max 0 (min 100 (70 + ⌊(-(7 / 10) : ℚ) * 15⌋)) = 59
    have h1 : (-(7 / 10 : ℚ) * 15) = -(21 / 2) := by norm_num
    have h2 : ⌊(-(21 / 2) : ℚ)⌋ = -11 := by
      rw [Int.floor_eq_iff]; norm_num
    rw [h1, h2]
    decide

/-- C3 (amended): the health stage computes
`clamp₀¹⁰⁰(base + int(sentiment × 15))` where `int` truncates toward
zero (equal to `floor` only for non-negative products, so the claimed
floor formula holds for non-negative sentiment, and 70 with 0.4 yields
76); the trend is the ±5-threshold classification against the previous
score. -/
theorem c3_health_amended (deal : DealData) (sentiment : ℚ) :
    (health_node deal sentiment).health_score
      = max 0 (min 100 (deal.healthScore.getD 70 + pyInt (sentiment * 15)))
  ∧ (0 ≤ sentiment → pyInt (sentiment * 15) = ⌊sentiment * 15⌋)
  ∧ (health_node deal sentiment).trend
      = (if deal.previousHealthScore.getD (deal.healthScore.getD 70) + 5
              < (health_node deal sentiment).health_score then "up"
         else if (health_node deal sentiment).health_score
              < deal.previousHealthScore.getD (deal.healthScore.getD 70) - 5 then "down"
         else "stable")
  ∧ 0 ≤ (health_node deal sentiment).health_score
  ∧ (health_node deal sentiment).health_score ≤ 100 := by
  refine ⟨rfl, ?_, rfl, le_max_left 0 _, max_le (by norm_num) (min_le_left 100 _)⟩
  intro h
  unfold pyInt
  rw [if_pos (by positivity)]

/-- C3 (witness): the amended theorem at base 70, sentiment 0.4: health
76, adjustment `int(6) = floor(6) = 6`. -/
theorem c3_health_witness :
    (health_node ⟨some 70, none⟩ (2 / 5)).health_score
      = max 0 (min 100 (70 + pyInt ((2 / 5 : ℚ) * 15)))
  ∧ pyInt ((2 / 5 : ℚ) * 15) = ⌊(2 / 5 : ℚ) * 15⌋
  ∧ (health_node ⟨some 70, none⟩ (2 / 5)).health_score = 76 := by
  refine ⟨(c3_health_amended ⟨some 70, none⟩ (2 / 5)).1,
    (c3_health_amended ⟨some 70, none⟩ (2 / 5)).2.1 (by norm_num), ?_⟩
  show max 0 (min 100 (70 + pyInt (2 / 5 * 15))) = 76
  have h1 : ((2 / 5 : ℚ) * 15) = 6 := by norm_num
  have h2 : pyInt 6 = 6 := by
    unfold pyInt
    rw [if_pos (by norm_num)]
    rw [show ((6 : ℚ)) = ((6 : ℤ) : ℚ) by norm_num, Int.floor_intCast]
  rw [h1, h2]
  decide

/-- C7: a monitoring run whose communication fetch yields zero
communications completes (never fails), reports zero alerts, and carries
the explanatory no-data message and reason. -/
theorem c7_no_comms_completes (dealHealth : Option ℤ) (reason : Option String)
    (graphOutcome : MonitoringOutcome) :
    (run_monitoring_final [] dealHealth reason graphOutcome).status = "completed"
  ∧ (run_monitoring_final [] dealHealth reason graphOutcome).status ≠ "failed"
  ∧ (run_monitoring_final [] dealHealth reason graphOutcome).alertsGenerated = 0
  ∧ (run_monitoring_final [] dealHealth reason graphOutcome).message
      = "Monitoring complete — no relevant emails found"
  ∧ (run_monitoring_final [] dealHealth reason graphOutcome).noEmailsReason = reason := by
  exact ⟨rfl, (by decide : ("completed" : String) ≠ "failed"), rfl, rfl, rfl⟩

/-- C9 (counterexample): a monitoring run with an empty communication
list executes no stage at all — the early return precedes the graph — so
the stages are not "executed exactly once" on empty prerequisite data. -/
theorem c9_counterexample :
    monitoringExecutedStages [] = [] ∧ monitoringExecutedStages [] ≠ monitoringSteps := by
  decide

/-- C9 (amended): when a monitoring run reaches the graph (at least one
communication), and in every qualification/proposal run that reaches the
graph, the flow's stages execute exactly once each, in the fixed linear
chain order; but a monitoring run with zero communications executes zero
stages and completes early. -/
theorem c9_stage_execution (comms : List CommRec) (h : comms ≠ []) :
    monitoringExecutedStages comms = monitoringSteps
  ∧ monitoringSteps = monitoringGraphChain ∧ monitoringGraphChain.Nodup
  ∧ qualificationGraphChain = qualificationSteps ∧ qualificationGraphChain.Nodup
  ∧ proposalGraphChain = proposalSteps ∧ proposalGraphChain.Nodup := by
  refine ⟨?_, by decide, by decide, by decide, by decide, by decide, by decide⟩
  unfold monitoringExecutedStages
  cases comms with
  | nil => exact absurd rfl h
  | cons c t => rfl

/-- C9 (witness): the amended theorem at a one-element communication
list. -/
theorem c9_stage_execution_witness :
    monitoringExecutedStages [⟨"a@b.c", "subj", "text"⟩] = monitoringSteps :=
  (c9_stage_execution [⟨"a@b.c", "subj", "text"⟩] (by decide)).1

/-- C6 (counterexample): in a successful qualification run the stage
announcement sent before the graph and the first streamed graph event
both carry stage index 1 (and the completion event repeats index 5), so
the reported stage indices are not strictly increasing. -/
theorem c6_counterexample :
    isChainLt (stepNumbers qualificationRunEvents) = false
  ∧ stepNumbers qualificationRunEvents = [1, 1, 2, 3, 4, 5, 5] := by
  decide

/-- C6 (amended): in every successful run of each flow, the stage
indices are non-decreasing (not strictly increasing), every event that
carries a total reports the fixed stage count of the flow (5
qualification, 3 proposal, 4 monitoring; the initial `initializing`
record carries none), and the final event has status `completed` with
stage index equal to the total. -/
theorem c6_progress_events :
    (isChainLe (stepNumbers qualificationRunEvents) = true
      ∧ qualificationRunEvents.all (fun e => e.totalSteps.getD 5 == 5) = true
      ∧ qualificationRunEvents.getLast? = some ⟨"complete", some 5, some 5, "completed"⟩)
  ∧ (isChainLe (stepNumbers proposalRunEvents) = true
      ∧ proposalRunEvents.all (fun e => e.totalSteps.getD 3 == 3) = true
      ∧ proposalRunEvents.getLast? = some ⟨"complete", some 3, some 3, "completed"⟩)
  ∧ (isChainLe (stepNumbers monitoringRunEvents) = true
      ∧ monitoringRunEvents.all (fun e => e.totalSteps.getD 4 == 4) = true
      ∧ monitoringRunEvents.getLast? = some ⟨"complete", some 4, some 4, "completed"⟩)
  ∧ (isChainLe (stepNumbers monitoringNoCommsRunEvents) = true
      ∧ monitoringNoCommsRunEvents.all (fun e => e.totalSteps.getD 4 == 4) = true
      ∧ monitoringNoCommsRunEvents.getLast?
          = some ⟨"complete", some 4, some 4, "completed"⟩) := by
  decide

/-- Every normal return of the comply try-block carries the `comply`
step marker. -/
theorem comply_try_step (draft resultText : String) (u : ComplyUpdate)
    (h : comply_try draft resultText = Except.ok u) : u.current_step = "comply" := by
  simp only [comply_try] at h
  repeat' split at h
  all_goals first
    | exact Except.noConfusion h
    | (injection h with h'; exact h' ▸ rfl)

/-- Every normal return of the comply try-block has its compliance
score inside [0, 1]. -/
theorem comply_try_score_bounds (draft resultText : String) (u : ComplyUpdate)
    (h : comply_try draft resultText = Except.ok u) :
    0 ≤ u.compliance_score ∧ u.compliance_score ≤ 1 := by
  simp only [comply_try] at h
  repeat' split at h
  all_goals first
    | exact Except.noConfusion h
    | (injection h with h'; subst h'; constructor
       · first
         | exact le_max_left 0 _
         | norm_num [complyNoParseFallback]
       · first
         | exact max_le (by norm_num) (min_le_left 1 _)
         | norm_num [complyNoParseFallback])

/-- C1 (counterexample): the sentiment stage's parse path is not total:
on the response text "[1]" — valid JSON whose top-level value is a list —
`json.loads` succeeds, `result.get("scores", [])` raises
`AttributeError`, and only `json.JSONDecodeError` / `IndexError` are
caught, so the exception escapes the stage. -/
theorem c1_counterexample :
    sentiment_node_parse "[1]" = Except.error PyError.attributeError := rfl

/-- C1 (amended): the comply stage's parse path is total — its
`except Exception` boundary turns every internal parse exception into
the well-formed fallback update — and the sentiment stage's parse path
returns a well-formed result exactly when the fence-stripped response
fails to parse as JSON (safe defaults) or parses to an object whose
`scores` value is sized; when the response parses to a non-object JSON
value (or `scores` is unsized) the sentiment stage raises. -/
theorem c1_parse_totality (draft resultText : String) :
    (comply_node_result draft resultText).current_step = "comply"
  ∧ (∀ e, comply_try draft resultText = Except.error e →
      comply_node_result draft resultText = complyExceptFallback draft)
  ∧ (sentiment_node_parse resultText).isOk = sentimentParseOk resultText
  ∧ (jsonLoads (pyStrip (extractFenced resultText)) = none →
      sentiment_node_parse resultText = Except.ok ⟨Json.arr [], Json.num 0, "sentiment"⟩) := by
  refine ⟨?_, ?_, ?_, ?_⟩
  · unfold comply_node_result
    cases h : comply_try draft resultText with
    | ok u => exact comply_try_step draft resultText u h
    | error e => rfl
  · intro e h
    unfold comply_node_result
    rw [h]
  · unfold sentiment_node_parse sentimentParseOk
    cases jsonLoads (pyStrip (extractFenced resultText)) with
    | none => rfl
    | some v =>
      cases v with
      | obj fields =>
        cases hj : jsonSized (objGet fields "scores" (Json.arr [])) <;>
          simp [hj, Except.isOk, Except.toBool]
      | null => rfl
      | bool b => rfl
      | num q => rfl
      | str s => rfl
      | arr xs => rfl
  · intro h
    unfold sentiment_node_parse
    rw [h]

/-- C1 (witness): the amended theorem exercised at concrete inputs: the
comply boundary swallows the `AttributeError` raised on "[1]", and the
sentiment stage returns the safe default on non-JSON prose. -/
theorem c1_witness :
    comply_try "quinn draft" "[1]" = Except.error PyError.attributeError
  ∧ comply_node_result "quinn draft" "[1]" = complyExceptFallback "quinn draft"
  ∧ jsonLoads (pyStrip (extractFenced "no json here")) = none
  ∧ sentiment_node_parse "no json here"
      = Except.ok ⟨Json.arr [], Json.num 0, "sentiment"⟩ :=
  ⟨rfl, (c1_parse_totality "quinn draft" "[1]").2.1 PyError.attributeError rfl, rfl,
    (c1_parse_totality "quinn draft" "no json here").2.2.2 rfl⟩

/-- C8 (counterexample): the qualification confidence score is stored
exactly as parsed, with no clamping: the response
`\x7b"confidence_score": 2\x7d` yields confidence 2 ∉ [0, 1]. -/
theorem c8_counterexample :
    decideConfidence (decide_node_parse "\x7b\"confidence_score\": 2\x7d") = some 2
  ∧ ¬ ((2 : ℚ) ≤ 1) :=
  ⟨by decide, by norm_num⟩

/-- C8 (amended): the proposal compliance score is clamped into [0, 1]
on every path of the comply stage (including the no-requirements early
return and both fallbacks), but the qualification confidence score is
returned as parsed, without clamping (see the counterexample). -/
theorem c8_comply_clamped (requirements : List Json) (draft resultText : String) :
    0 ≤ (comply_node requirements draft resultText).compliance_score
  ∧ (comply_node requirements draft resultText).compliance_score ≤ 1 := by
  unfold comply_node
  cases hr : requirements.isEmpty with
  | true => exact ⟨by norm_num, by norm_num⟩
  | false =>
    simp only [Bool.false_eq_true, if_false]
    unfold comply_node_result
    cases h : comply_try draft resultText with
    | ok u => exact comply_try_score_bounds draft resultText u h
    | error e => exact ⟨by norm_num [complyExceptFallback], by norm_num [complyExceptFallback]⟩

/-- The competitor scan of the alert stage (one `break` per
sentiment-score record) yields one medium `competitor_mention` alert per
record with a matching signal. -/
theorem competitor_alerts_replicate (scores : List ScoreRec) :
    scores.filterMap (fun sc =>
        if hasCompetitorSignal sc then some (⟨"competitor_mention", "medium"⟩ : AlertRec)
        else none)
      = List.replicate (scores.countP hasCompetitorSignal) ⟨"competitor_mention", "medium"⟩ := by
  induction scores with
  | nil => rfl
  | cons sc t ih =>
    by_cases h : hasCompetitorSignal sc <;>
      simp [List.filterMap_cons, List.countP_cons, h, ih, List.replicate_succ]

/-- Filtering a replicated list keeps all or nothing. -/
theorem filter_replicate_eq (n : ℕ) (c : AlertRec) (p : AlertRec → Bool) :
    (List.replicate n c).filter p = if p c then List.replicate n c else [] := by
  induction n with
  | zero => simp
  | succ m ih =>
    by_cases h : p c <;> simp [List.replicate_succ, List.filter_cons, h, ih]

/-- `List.all` over a replicated list. -/
theorem all_replicate_eq (n : ℕ) (c : AlertRec) (p : AlertRec → Bool) :
    (List.replicate n c).all p = (n == 0 || p c) := by
  induction n with
  | zero => rfl
  | succ m ih => cases hp : p c <;> simp [List.replicate_succ, hp, ih]

/-- Closed form of the alert stage: the single positive-update alert
when nothing else fired and sentiment is positive enough, otherwise the
concatenation of the threshold alerts. -/
theorem alert_node_eq (sentiment : ℚ) (health_score : ℤ) (scores : List ScoreRec) :
    alert_node sentiment health_score scores
      = if ¬ sentiment < -(3 / 10 : ℚ) ∧ ¬ health_score < 50
            ∧ scores.countP hasCompetitorSignal = 0 ∧ (2 / 10 : ℚ) < sentiment
        then [⟨"positive_update", "info"⟩]
        else
          (if sentiment < -(3 / 10 : ℚ) then
            [⟨"sentiment_drop", if sentiment < -(6 / 10 : ℚ) then "critical" else "high"⟩]
          else [])
          ++ (if health_score < 50 then [⟨"deadline_risk", "high"⟩] else [])
          ++ List.replicate (scores.countP hasCompetitorSignal)
              ⟨"competitor_mention", "medium"⟩ := by
  simp only [alert_node, competitor_alerts_replicate]
  by_cases h1 : sentiment < -(3 / 10 : ℚ) <;> by_cases h2 : health_score < 50 <;>
    by_cases h4 : (2 / 10 : ℚ) < sentiment <;>
    cases hcp : scores.countP hasCompetitorSignal <;>
    simp [h1, h2, h4, List.replicate_succ]

/-- C4: the alert stage derives alerts exactly by the fixed thresholds:
one sentiment-drop alert iff sentiment < −0.3 (critical iff < −0.6, else
high), one deadline-risk alert at high iff health < 50, one medium
competitor-mention alert per sentiment-score record containing a
"competitor" signal (case-insensitive), a single positive-update info
alert iff nothing else fired and sentiment > 0.2, and no other alert
type ever. -/
theorem c4_alert_thresholds (sentiment : ℚ) (health_score : ℤ) (scores : List ScoreRec) :
    ((alert_node sentiment health_score scores).filter
        (fun a => a.alert_type == "sentiment_drop")
      = if sentiment < -(3 / 10 : ℚ) then
          [⟨"sentiment_drop", if sentiment < -(6 / 10 : ℚ) then "critical" else "high"⟩]
        else [])
  ∧ ((alert_node sentiment health_score scores).filter
        (fun a => a.alert_type == "deadline_risk")
      = if health_score < 50 then [⟨"deadline_risk", "high"⟩] else [])
  ∧ ((alert_node sentiment health_score scores).filter
        (fun a => a.alert_type == "competitor_mention")
      = List.replicate (scores.countP hasCompetitorSignal) ⟨"competitor_mention", "medium"⟩)
  ∧ ((alert_node sentiment health_score scores).filter
        (fun a => a.alert_type == "positive_update")
      = if ¬ sentiment < -(3 / 10 : ℚ) ∧ ¬ health_score < 50
            ∧ scores.countP hasCompetitorSignal = 0 ∧ (2 / 10 : ℚ) < sentiment
        then [⟨"positive_update", "info"⟩] else [])
  ∧ (alert_node sentiment health_score scores).all (fun a =>
        a.alert_type == "sentiment_drop" || a.alert_type == "deadline_risk"
        || a.alert_type == "competitor_mention" || a.alert_type == "positive_update")
      = true := by
  rw [alert_node_eq]
  by_cases h1 : sentiment < -(3 / 10 : ℚ) <;> by_cases h2 : health_score < 50 <;>
    by_cases h4 : (2 / 10 : ℚ) < sentiment <;>
    cases hcp : scores.countP hasCompetitorSignal <;>
    simp [h1, h2, h4, List.filter_append, List.all_append, filter_replicate_eq,
      all_replicate_eq, List.replicate_succ]

/-- C10: a positive-update alert is mutually exclusive with every other
alert: whenever the detected-alert list contains one, that list has
length exactly 1. -/
theorem c10_positive_update_exclusive (sentiment : ℚ) (health_score : ℤ)
    (scores : List ScoreRec)
    (h : "positive_update"
        ∈ (alert_node sentiment health_score scores).map (fun a => a.alert_type)) :
    (alert_node sentiment health_score scores).length = 1 := by
  rw [alert_node_eq] at h ⊢
  by_cases h1 : sentiment < -(3 / 10 : ℚ) <;> by_cases h2 : health_score < 50 <;>
    by_cases h4 : (2 / 10 : ℚ) < sentiment <;>
    cases hcp : scores.countP hasCompetitorSignal <;>
    simp_all [List.mem_replicate, List.replicate_succ]

/-- C10 (witness): the exclusivity theorem at sentiment 0.5, health 70
and no sentiment-score records: the stage emits exactly the one
positive-update alert. -/
theorem c10_witness : (alert_node (1 / 2) 70 []).length = 1 :=
  c10_positive_update_exclusive (1 / 2) 70 []
    (by rw [alert_node_eq]; norm_num)

/-- Membership in a descending insertion. -/
theorem mem_insertDesc {x y : MatchedStaff} {l : List MatchedStaff} :
    y ∈ insertDesc x l ↔ y = x ∨ y ∈ l := by
  induction l with
  | nil => simp [insertDesc]
  | cons z t ih =>
    by_cases h : z.matchScore ≤ x.matchScore
    · simp [insertDesc, h]
    · simp [insertDesc, h, ih]
      tauto

/-- Descending insertion permutes consing. -/
theorem insertDesc_perm (x : MatchedStaff) (l : List MatchedStaff) :
    List.Perm (insertDesc x l) (x :: l) := by
  induction l with
  | nil => exact List.Perm.refl _
  | cons z t ih =>
    by_cases h : z.matchScore ≤ x.matchScore
    · simp [insertDesc, h]
    · simp only [insertDesc, h, if_false]
      exact (ih.cons z).trans (List.Perm.swap x z t)

/-- The stable descending sort permutes its input. -/
theorem sortDesc_perm (l : List MatchedStaff) : List.Perm (sortDesc l) l := by
  induction l with
  | nil => exact List.Perm.refl _
  | cons x t ih => exact (insertDesc_perm x (sortDesc t)).trans (ih.cons x)

/-- Descending insertion preserves descending sortedness. -/
theorem pairwise_insertDesc (x : MatchedStaff) (l : List MatchedStaff)
    (h : l.Pairwise (fun a b => b.matchScore ≤ a.matchScore)) :
    (insertDesc x l).Pairwise (fun a b => b.matchScore ≤ a.matchScore) := by
  induction l with
  | nil => simp [insertDesc]
  | cons z t ih =>
    rcases List.pairwise_cons.mp h with ⟨hz, ht⟩
    by_cases hle : z.matchScore ≤ x.matchScore
    · simp only [insertDesc, hle, if_true]
      refine List.pairwise_cons.mpr ⟨?_, h⟩
      intro w hw
      rcases List.mem_cons.mp hw with rfl | hw
      · exact hle
      · exact le_trans (hz w hw) hle
    · simp only [insertDesc, hle, if_false]
      refine List.pairwise_cons.mpr ⟨?_, ih ht⟩
      intro w hw
      rcases mem_insertDesc.mp hw with rfl | hw
      · exact le_of_not_le hle
      · exact hz w hw

/-- The stable descending sort yields a descending list. -/
theorem sortDesc_sorted (l : List MatchedStaff) :
    (sortDesc l).Pairwise (fun a b => b.matchScore ≤ a.matchScore) := by
  induction l with
  | nil => simp [sortDesc]
  | cons x t ih => exact pairwise_insertDesc x (sortDesc t) ih

/-- Elements of one score class pass through a descending insertion with
the inserted element, if of that class, in front. -/
theorem filter_insertDesc (x : MatchedStaff) (l : List MatchedStaff) (k : ℕ) :
    (insertDesc x l).filter (fun a => a.matchScore == k)
      = (if x.matchScore = k then [x] else [])
        ++ l.filter (fun a => a.matchScore == k) := by
  induction l with
  | nil => by_cases h : x.matchScore = k <;> simp [insertDesc, h]
  | cons z t ih =>
    by_cases hle : z.matchScore ≤ x.matchScore
    · rw [show insertDesc x (z :: t) = x :: z :: t from by simp [insertDesc, hle]]
      by_cases hx : x.matchScore = k <;> simp [List.filter_cons, hx]
    · rw [show insertDesc x (z :: t) = z :: insertDesc x t from by simp [insertDesc, hle]]
      rw [List.filter_cons, ih, List.filter_cons]
      by_cases hx : x.matchScore = k
      · have hzk : ¬ z.matchScore = k := by omega
        simp [hx, hzk]
      · by_cases hzk : z.matchScore = k <;> simp [hx, hzk]

/-- Stability of the descending sort: each score class keeps its input
order (CPython's `list.sort` stability). -/
theorem sortDesc_stable (l : List MatchedStaff) (k : ℕ) :
    (sortDesc l).filter (fun a => a.matchScore == k)
      = l.filter (fun a => a.matchScore == k) := by
  induction l with
  | nil => rfl
  | cons x t ih =>
    rw [sortDesc, filter_insertDesc, ih, List.filter_cons]
    by_cases h : x.matchScore = k <;> simp [h]

/-- The scoring loop keeps exactly the employees with a non-empty
overlap, in roster order, as `mkMatched` records. -/
theorem scoreEmployees_eq_filter_map (emps : List EmployeeRec) (kw : Finset String) :
    scoreEmployees emps kw
      = (emps.filter (fun e => !(empTerms e ∩ kw == ∅))).map (mkMatched kw) := by
  induction emps with
  | nil => rfl
  | cons e t ih =>
    simp only [scoreEmployees] at ih ⊢
    by_cases h : empTerms e ∩ kw = ∅ <;>
      simp [List.filterMap_cons, List.filter_cons, h, ih]

/-- C2 (amended): the capability ranking scores each roster record by
the size of the intersection of its term set with the required-keyword
set (which, in the source, also contains each whole lower-cased category
and the gap-analysis/key-role tokens — see the counterexample), excludes
zero-overlap records rather than scoring them 0, and sorts descending by
match score with ties kept stable in roster order. -/
theorem c2_capability_ranking (emps : List EmployeeRec) (kw : Finset String) :
    scoreEmployees emps kw
      = (emps.filter (fun e => !(empTerms e ∩ kw == ∅))).map (mkMatched kw)
  ∧ (∀ m ∈ scoreEmployees emps kw,
      m.matchScore = m.matchingSkills.card ∧ m.matchScore ≠ 0)
  ∧ List.Perm (rankEmployees emps kw) (scoreEmployees emps kw)
  ∧ (rankEmployees emps kw).Pairwise (fun a b => b.matchScore ≤ a.matchScore)
  ∧ ∀ k, (rankEmployees emps kw).filter (fun m => m.matchScore == k)
      = (scoreEmployees emps kw).filter (fun m => m.matchScore == k) := by
  refine ⟨scoreEmployees_eq_filter_map emps kw, ?_, sortDesc_perm _, sortDesc_sorted _,
    fun k => sortDesc_stable _ k⟩
  intro m hm
  rw [scoreEmployees_eq_filter_map] at hm
  rcases List.mem_map.mp hm with ⟨e, he, rfl⟩
  have hne : ¬ (empTerms e ∩ kw = ∅) := by
    have hmem := List.of_mem_filter he
    simpa using hmem
  refine ⟨rfl, ?_⟩
  simpa [mkMatched, Finset.card_eq_zero] using hne

/-- Sample requirement for the C2 concrete instances. -/
def reqUi : Requirement := ⟨"need budget", "ui"⟩

/-- Sample employee for the C2 concrete instances. -/
def empUi : EmployeeRec := ⟨"e9", "Bea", "dev", ["ui"], 80⟩

/-- C2 (counterexample): with requirement text "need budget" and
category "ui", the source adds the whole category "ui" (length ≤ 3) to
the keyword set, so an employee with skill "ui" is ranked with score 1;
under the claim's keyword set (length > 3 tokens only) the employee has
empty overlap and would be excluded. -/
theorem c2_counterexample :
    rankEmployees [empUi] (requiredKeywords [reqUi] ⟨[], [], []⟩)
      = [⟨"e9", "Bea", "dev", {"ui"}, 1, 80⟩]
  ∧ rankEmployees [empUi] (specRequiredKeywords [reqUi]) = [] := by
  decide

/-- C2 (witness): the amended theorem at a one-employee roster: the
matched record's score is the overlap cardinality and non-zero. -/
theorem c2_witness :
    (mkMatched (requiredKeywords [reqUi] ⟨[], [], []⟩) empUi).matchScore
      = (mkMatched (requiredKeywords [reqUi] ⟨[], [], []⟩) empUi).matchingSkills.card
  ∧ (mkMatched (requiredKeywords [reqUi] ⟨[], [], []⟩) empUi).matchScore ≠ 0 :=
  (c2_capability_ranking [empUi] (requiredKeywords [reqUi] ⟨[], [], []⟩)).2.1
    (mkMatched (requiredKeywords [reqUi] ⟨[], [], []⟩) empUi) (by decide)

/-- C5: auto-assignment with a non-empty match list replaces exactly the
prior `auto` rows of the deal (manual rows and other deals' rows are
untouched), creates `min(5, matched)` new `auto` rows in descending
match-score order, each allocating `min(availability, 100)` percent. -/
theorem c5_auto_assignment (dealId : String) (prior : List DealAssignmentRec)
    (matched : List MatchedStaff) (hne : matched ≠ [])
    (hsorted : matched.Pairwise (fun a b => b.matchScore ≤ a.matchScore)) :
    ((autoAssign dealId prior matched).1.filter (isAutoFor dealId)
        = (matched.take 5).map (mkAutoAssignment dealId))
  ∧ ((autoAssign dealId prior matched).1.filter (fun a => !isAutoFor dealId a)
        = prior.filter (fun a => !isAutoFor dealId a))
  ∧ ((autoAssign dealId prior matched).2 = min 5 matched.length)
  ∧ (((autoAssign dealId prior matched).1.filter (isAutoFor dealId)).map
        (fun a => a.allocationPercent)
        = (matched.take 5).map (fun s => min s.availabilityPercent 100))
  ∧ ((autoAssign dealId prior matched).1.filter (isAutoFor dealId)).Pairwise
        (fun a b => b.matchScore ≤ a.matchScore) := by
  have hm : matched.isEmpty = false := by
    cases matched with
    | nil => exact absurd rfl hne
    | cons s t => rfl
  have hnew : ∀ a ∈ (matched.take 5).map (mkAutoAssignment dealId),
      isAutoFor dealId a = true := by
    intro a ha
    rcases List.mem_map.mp ha with ⟨s, _, rfl⟩
    simp [isAutoFor, mkAutoAssignment]
  simp only [autoAssign, hm, Bool.false_eq_true, if_false]
  have hfilter1 : ((prior.filter (fun a => !isAutoFor dealId a)
        ++ (matched.take 5).map (mkAutoAssignment dealId)).filter (isAutoFor dealId))
      = (matched.take 5).map (mkAutoAssignment dealId) := by
    rw [List.filter_append, List.filter_eq_self.mpr hnew]
    have : (prior.filter (fun a => !isAutoFor dealId a)).filter (isAutoFor dealId) = [] := by
      simp [List.filter_filter]
    rw [this]
    rfl
  refine ⟨hfilter1, ?_, ?_, ?_, ?_⟩
  · rw [List.filter_append]
    have h1 : (prior.filter (fun a => !isAutoFor dealId a)).filter
        (fun a => !isAutoFor dealId a) = prior.filter (fun a => !isAutoFor dealId a) := by
      simp [List.filter_filter]
    have h2 : ((matched.take 5).map (mkAutoAssignment dealId)).filter
        (fun a => !isAutoFor dealId a) = [] := by
      rw [List.filter_eq_nil_iff]
      intro a ha
      simp [hnew a ha]
    rw [h1, h2, List.append_nil]
  · simp [List.length_take]
  · rw [hfilter1, List.map_map]
    congr 1
  · rw [hfilter1]
    refine List.pairwise_map.mpr ?_
    exact List.Pairwise.sublist (List.take_sublist 5 matched) hsorted

/-- Eight matched-staff records with non-zero overlap, sorted descending
(the concrete roster of the C5 witness). -/
def matchedEight : List MatchedStaff :=
  [⟨"m1", "A", "dev", {"python"}, 9, 120⟩, ⟨"m2", "B", "dev", {"python"}, 8, 100⟩,
   ⟨"m3", "C", "dev", {"cloud"}, 7, 80⟩, ⟨"m4", "D", "qa", {"testing"}, 6, 60⟩,
   ⟨"m5", "E", "qa", {"testing"}, 5, 50⟩, ⟨"m6", "F", "pm", {"agile"}, 4, 40⟩,
   ⟨"m7", "G", "pm", {"agile"}, 3, 30⟩, ⟨"m8", "H", "ux", {"design"}, 2, 20⟩]

/-- Prior assignment rows for the C5 witness: one stale auto row of the
deal, one manual row of the deal, one auto row of another deal. -/
def priorRows : List DealAssignmentRec :=
  [⟨"d1", "old1", "dev", 50, "auto", 1⟩, ⟨"d1", "keep1", "dev", 60, "manual", 0⟩,
   ⟨"d2", "other1", "dev", 70, "auto", 2⟩]

/-- C5 (witness): the theorem at a roster of 8 matched records and three
prior rows: exactly `min 5 8 = 5` assignments are produced and the
non-auto rows of the deal survive unchanged. -/
theorem c5_witness :
    (autoAssign "d1" priorRows matchedEight).2 = min 5 matchedEight.length
  ∧ (autoAssign "d1" priorRows matchedEight).1.filter (fun a => !isAutoFor "d1" a)
      = priorRows.filter (fun a => !isAutoFor "d1" a) :=
  ⟨(c5_auto_assignment "d1" priorRows matchedEight (by decide) (by decide)).2.2.1,
   (c5_auto_assignment "d1" priorRows matchedEight (by decide) (by decide)).2.1⟩

end DealMind
